import Mathlib

/-!
Verification of the worksheet-maker web application against its
natural-language specification.

The development shallowly embeds the two API route handlers
(`src/app/api/generate/route.ts` and `src/app/api/export-pdf/route.ts`):

* the in-memory per-IP rate limiter (`checkRateLimit` and the module-level
  `rateLimitMap`, modelled as an explicit association list that is threaded
  through the calls);
* the zod input schema (`inputSchema`), modelled as a pure validation
  function that collects the path of every violated field, the way
  `ZodError.errors` does;
* the prompt-template string built by the generate handler, modelled as the
  list of its lines joined with newline characters (the reassembled string
  is byte-for-byte the TypeScript template literal);
* the two handlers themselves, with the opaque external collaborators
  (the generative-AI call, the headless-browser render steps) passed in as
  explicit outcome parameters, and with the acquisition/release of the
  browser context recorded in the result.

JavaScript is single threaded and `checkRateLimit` contains no `await`, so
each call executes atomically; concurrency is modelled as an arbitrary
interleaving (an arbitrary sequence) of whole calls.
-/

namespace WorksheetMaker

/-! ## Rate limiter (src/app/api/generate/route.ts, lines 28-48) -/

/-- One entry of `rateLimitMap`: `{ count: number; resetTime: number }`.
Times are in milliseconds, as produced by `Date.now()`. -/
structure RateLimitRecord where
  count : Nat
  resetTime : Nat
deriving DecidableEq

/-- The module-level `rateLimitMap : Map<string, {count, resetTime}>`,
modelled as an association list in insertion order. -/
abbrev RLMap := List (String × RateLimitRecord)

/-- `Map.set`: replace the binding in place if the key is present,
otherwise append it. -/
def mapSet : RLMap → String → RateLimitRecord → RLMap
  | [], k, v => [(k, v)]
  | (k', v') :: rest, k, v =>
      if k' = k then (k, v) :: rest else (k', v') :: mapSet rest k v

/-- `checkRateLimit(ip)`: window of 60 * 1000 ms, capacity 10.  The source
reads and mutates the shared map; here the map is passed and returned
explicitly, together with the boolean result. -/
def checkRateLimit (ip : String) (now : Nat) (m : RLMap) : Bool × RLMap :=
  let windowMs := 60 * 1000
  let maxRequests := 10
  match List.lookup ip m with
  | none => (true, mapSet m ip ⟨1, now + windowMs⟩)
  | some record =>
      if now > record.resetTime then
        (true, mapSet m ip ⟨1, now + windowMs⟩)
      else if record.count ≥ maxRequests then
        (false, m)
      else
        (true, mapSet m ip ⟨record.count + 1, record.resetTime⟩)

/-- Sequentially process a list of calls for one key, returning the list of
admission results and the final map. -/
def runCalls (ip : String) : List Nat → RLMap → List Bool × RLMap
  | [], m => ([], m)
  | t :: ts, m =>
      let r := checkRateLimit ip t m
      let rest := runCalls ip ts r.2
      (r.1 :: rest.1, rest.2)

/-- A call that starts a fresh window: first observation of the key, or the
stored window has elapsed. -/
def isWindowReset (ip : String) (now : Nat) (m : RLMap) : Bool :=
  match List.lookup ip m with
  | none => true
  | some record => decide (now > record.resetTime)

/-- Run an arbitrary interleaving of calls (each element is a key together
with its `Date.now()` value); JavaScript's event loop executes each
`checkRateLimit` call atomically, so every concurrent execution is one such
sequence. -/
def runTrace : List (String × Nat) → RLMap → RLMap
  | [], m => m
  | (ip, t) :: rest, m => runTrace rest (checkRateLimit ip t m).2

/-- Ghost observer for a key `K`: the number of admitted `K`-calls since the
last call that started a fresh window for `K` (the current window). -/
def admittedInWindow (K : String) : List (String × Nat) → RLMap → Nat → Nat
  | [], _, g => g
  | (ip, t) :: rest, m, g =>
      let ok := (checkRateLimit ip t m).1
      let g' :=
        if ip = K then
          if ok then (if isWindowReset ip t m then 1 else g + 1) else g
        else g
      admittedInWindow K rest (checkRateLimit ip t m).2 g'

theorem lookup_mapSet (m : RLMap) (k k' : String) (v : RateLimitRecord) :
    List.lookup k' (mapSet m k v) =
      if k' = k then some v else List.lookup k' m := by
  induction m with
  | nil =>
      by_cases h : k' = k
      · subst h; simp [mapSet, List.lookup]
      · have hb : (k' == k) = false := beq_eq_false_iff_ne.mpr h
        simp [mapSet, List.lookup, hb, h]
  | cons hd tl ih =>
      obtain ⟨k₀, v₀⟩ := hd
      by_cases h : k₀ = k
      · subst h
        by_cases h' : k' = k₀
        · subst h'; simp [mapSet, List.lookup]
        · have hb : (k' == k₀) = false := beq_eq_false_iff_ne.mpr h'
          simp [mapSet, List.lookup, hb, h']
      · by_cases h' : k' = k₀
        · subst h'
          simp [mapSet, List.lookup, h, Ne.symm h, ih]
        · have hb : (k' == k₀) = false := beq_eq_false_iff_ne.mpr h'
          simp [mapSet, List.lookup, h, hb, ih]

theorem checkRateLimit_fresh (ip : String) (now : Nat) (m : RLMap)
    (h : List.lookup ip m = none) :
    checkRateLimit ip now m = (true, mapSet m ip ⟨1, now + 60000⟩) := by
  simp [checkRateLimit, h]

theorem checkRateLimit_reset (ip : String) (now : Nat) (m : RLMap)
    (r : RateLimitRecord) (h : List.lookup ip m = some r)
    (hw : now > r.resetTime) :
    checkRateLimit ip now m = (true, mapSet m ip ⟨1, now + 60000⟩) := by
  simp [checkRateLimit, h, hw]

theorem checkRateLimit_reject (ip : String) (now : Nat) (m : RLMap)
    (r : RateLimitRecord) (h : List.lookup ip m = some r)
    (hw : ¬ now > r.resetTime) (hc : r.count ≥ 10) :
    checkRateLimit ip now m = (false, m) := by
  simp [checkRateLimit, h, hw, hc]

theorem checkRateLimit_incr (ip : String) (now : Nat) (m : RLMap)
    (r : RateLimitRecord) (h : List.lookup ip m = some r)
    (hw : ¬ now > r.resetTime) (hc : r.count < 10) :
    checkRateLimit ip now m =
      (true, mapSet m ip ⟨r.count + 1, r.resetTime⟩) := by
  have : ¬ r.count ≥ 10 := by omega
  simp [checkRateLimit, h, hw, this]

theorem runCalls_within (ip : String) (ts : List Nat) :
    ∀ (m : RLMap) (r : RateLimitRecord),
      List.lookup ip m = some r →
      (∀ t ∈ ts, t ≤ r.resetTime) →
      r.count + ts.length ≤ 10 →
      (runCalls ip ts m).1 = List.replicate ts.length true ∧
        List.lookup ip (runCalls ip ts m).2 =
          some ⟨r.count + ts.length, r.resetTime⟩ := by
  induction ts with
  | nil => intro m r h _ _; simpa [runCalls] using h
  | cons t ts ih =>
      intro m r h hts hcap
      have hw : ¬ t > r.resetTime := by
        have := hts t (by simp); omega
      have hc : r.count < 10 := by
        have : 0 ≤ ts.length := Nat.zero_le _
        simp [List.length_cons] at hcap; omega
      have hstep := checkRateLimit_incr ip t m r h hw hc
      have hlook : List.lookup ip (mapSet m ip ⟨r.count + 1, r.resetTime⟩) =
          some ⟨r.count + 1, r.resetTime⟩ := by
        simp [lookup_mapSet]
      have hrec := ih (mapSet m ip ⟨r.count + 1, r.resetTime⟩)
        ⟨r.count + 1, r.resetTime⟩ hlook
        (by intro u hu; exact hts u (by simp [hu]))
        (by show r.count + 1 + ts.length ≤ 10
            simp [List.length_cons] at hcap; omega)
      have harith : r.count + 1 + ts.length = r.count + (ts.length + 1) := by omega
      refine ⟨?_, ?_⟩
      · simp only [runCalls, hstep, hrec.1, List.length_cons, List.replicate_succ]
      · simp only [runCalls, hstep]
        rw [hrec.2]
        simp [harith]

/-- C3: per-call behaviour of the rate limiter.  A first call for a key, or
a call after the stored window has elapsed, is admitted with a fresh
counter of 1 and a window ending 60 seconds later; within a live window a
call at capacity (10) is rejected and leaves the map unchanged; a call
below capacity is admitted and increments the counter; and starting from an
unseen key, 10 in-window calls are all admitted after which every further
in-window call is rejected. -/
theorem rateLimiter_admission_spec (K : String) (now : Nat) (m : RLMap) :
    (List.lookup K m = none →
      checkRateLimit K now m = (true, mapSet m K ⟨1, now + 60000⟩)) ∧
    (∀ r, List.lookup K m = some r → now > r.resetTime →
      checkRateLimit K now m = (true, mapSet m K ⟨1, now + 60000⟩)) ∧
    (∀ r, List.lookup K m = some r → now ≤ r.resetTime → 10 ≤ r.count →
      checkRateLimit K now m = (false, m)) ∧
    (∀ r, List.lookup K m = some r → now ≤ r.resetTime → r.count < 10 →
      checkRateLimit K now m = (true, mapSet m K ⟨r.count + 1, r.resetTime⟩)) ∧
    (List.lookup K m = none → ∀ t₀ ts, ts.length = 9 →
      (∀ t ∈ ts, t ≤ t₀ + 60000) →
      (runCalls K (t₀ :: ts) m).1 = List.replicate 10 true ∧
      ∀ t', t' ≤ t₀ + 60000 →
        checkRateLimit K t' (runCalls K (t₀ :: ts) m).2 =
          (false, (runCalls K (t₀ :: ts) m).2)) := by
  refine ⟨?_, ?_, ?_, ?_, ?_⟩
  · intro h; exact checkRateLimit_fresh K now m h
  · intro r h hw; exact checkRateLimit_reset K now m r h hw
  · intro r h hw hc
    exact checkRateLimit_reject K now m r h (by omega) hc
  · intro r h hw hc
    exact checkRateLimit_incr K now m r h (by omega) hc
  · intro h t₀ ts hlen hts
    have hfresh := checkRateLimit_fresh K t₀ m h
    have hlook : List.lookup K (mapSet m K ⟨1, t₀ + 60000⟩) =
        some ⟨1, t₀ + 60000⟩ := by simp [lookup_mapSet]
    have hrec := runCalls_within K ts (mapSet m K ⟨1, t₀ + 60000⟩)
      ⟨1, t₀ + 60000⟩ hlook hts
      (by show 1 + ts.length ≤ 10; omega)
    refine ⟨?_, ?_⟩
    · simp only [runCalls, hfresh]
      rw [hrec.1, hlen]
      rfl
    · intro t' ht'
      have hfinal : List.lookup K (runCalls K (t₀ :: ts) m).2 =
          some ⟨10, t₀ + 60000⟩ := by
        simp only [runCalls, hfresh]
        rw [hrec.2, hlen]
      exact checkRateLimit_reject K t' _ ⟨10, t₀ + 60000⟩ hfinal
        (by simp; omega) (by simp)

theorem rateLimiter_admission_spec_witness :
    (runCalls "203.0.113.7" (0 :: [1, 2, 3, 4, 5, 6, 7, 8, 9]) []).1 =
        List.replicate 10 true ∧
      checkRateLimit "203.0.113.7" 10
          (runCalls "203.0.113.7" (0 :: [1, 2, 3, 4, 5, 6, 7, 8, 9]) []).2 =
        (false, (runCalls "203.0.113.7" (0 :: [1, 2, 3, 4, 5, 6, 7, 8, 9]) []).2) := by
  have h := (rateLimiter_admission_spec "203.0.113.7" 0 []).2.2.2.2
    (by decide) 0 [1, 2, 3, 4, 5, 6, 7, 8, 9] (by decide) (by decide)
  exact ⟨h.1, h.2 10 (by decide)⟩

theorem step_preserves_window_count (K ip : String) (t : Nat) (m : RLMap)
    (g : Nat)
    (hinv : ∀ r, List.lookup K m = some r → r.count = g ∧ r.count ≤ 10) :
    ∀ r, List.lookup K (checkRateLimit ip t m).2 = some r →
      r.count =
        (if ip = K then
          if (checkRateLimit ip t m).1 then
            (if isWindowReset ip t m then 1 else g + 1)
          else g
        else g) ∧ r.count ≤ 10 := by
  intro r hr
  cases hcase : List.lookup ip m with
  | none =>
      rw [checkRateLimit_fresh ip t m hcase] at hr
      by_cases hK : ip = K
      · subst hK
        rw [lookup_mapSet] at hr
        simp at hr
        simp [checkRateLimit_fresh ip t m hcase, isWindowReset, hcase, ← hr]
      · rw [lookup_mapSet] at hr
        rw [if_neg (fun hc => hK hc.symm)] at hr
        have := hinv r hr
        refine ⟨?_, this.2⟩
        simp [hK, this.1]
  | some rec =>
      by_cases hw : t > rec.resetTime
      · rw [checkRateLimit_reset ip t m rec hcase hw] at hr
        by_cases hK : ip = K
        · subst hK
          rw [lookup_mapSet] at hr
          simp at hr
          simp [checkRateLimit_reset ip t m rec hcase hw, isWindowReset,
            hcase, hw, ← hr]
        · rw [lookup_mapSet] at hr
          rw [if_neg (fun hc => hK hc.symm)] at hr
          have := hinv r hr
          refine ⟨?_, this.2⟩
          simp [hK, this.1]
      · by_cases hc : rec.count ≥ 10
        · rw [checkRateLimit_reject ip t m rec hcase hw hc] at hr
          have := hinv r hr
          refine ⟨?_, this.2⟩
          simp [checkRateLimit_reject ip t m rec hcase hw hc, this.1]
        · push_neg at hc
          rw [checkRateLimit_incr ip t m rec hcase hw hc] at hr
          by_cases hK : ip = K
          · subst hK
            rw [lookup_mapSet] at hr
            simp at hr
            have hrec := hinv rec hcase
            rw [checkRateLimit_incr ip t m rec hcase hw hc]
            simp [isWindowReset, hcase, hw, ← hr, hrec.1]
            omega
          · rw [lookup_mapSet] at hr
            rw [if_neg (fun hcc => hK hcc.symm)] at hr
            have := hinv r hr
            refine ⟨?_, this.2⟩
            simp [hK, this.1]

theorem trace_window_count (K : String) (calls : List (String × Nat)) :
    ∀ (m : RLMap) (g : Nat),
      (∀ r, List.lookup K m = some r → r.count = g ∧ r.count ≤ 10) →
      ∀ r, List.lookup K (runTrace calls m) = some r →
        r.count = admittedInWindow K calls m g ∧ r.count ≤ 10 := by
  induction calls with
  | nil =>
      intro m g hinv r hr
      simp only [runTrace] at hr
      simpa [admittedInWindow] using hinv r hr
  | cons c rest ih =>
      obtain ⟨ip, t⟩ := c
      intro m g hinv r hr
      simp only [runTrace] at hr
      simp only [admittedInWindow]
      exact ih (checkRateLimit ip t m).2 _
        (step_preserves_window_count K ip t m g hinv) r hr

/-- C8: concurrency safety of the rate limiter.  `checkRateLimit` is a
synchronous JavaScript function (no `await`), so the single-threaded event
loop runs each call atomically and every concurrent execution is an
arbitrary interleaving, i.e. an arbitrary sequence of whole calls.  Along
every such interleaving, for every key, the stored counter equals the exact
number of admitted calls for that key in its current window (no increment
is ever lost) and never exceeds the capacity of 10. -/
theorem rateLimiter_no_lost_updates (K : String)
    (calls : List (String × Nat)) (r : RateLimitRecord)
    (h : List.lookup K (runTrace calls []) = some r) :
    r.count = admittedInWindow K calls [] 0 ∧ r.count ≤ 10 := by
  refine trace_window_count K calls [] 0 ?_ r h
  intro r hr
  simp [List.lookup] at hr

theorem rateLimiter_no_lost_updates_witness :
    (RateLimitRecord.mk 10 60000).count =
        admittedInWindow "a"
          [("a", 0), ("b", 0), ("a", 1), ("a", 2), ("b", 3), ("a", 3),
           ("a", 4), ("a", 5), ("a", 6), ("a", 7), ("a", 8), ("a", 9),
           ("a", 10), ("a", 11)] [] 0 ∧
      (RateLimitRecord.mk 10 60000).count ≤ 10 :=
  rateLimiter_no_lost_updates "a"
    [("a", 0), ("b", 0), ("a", 1), ("a", 2), ("b", 3), ("a", 3),
     ("a", 4), ("a", 5), ("a", 6), ("a", 7), ("a", 8), ("a", 9),
     ("a", 10), ("a", 11)] ⟨10, 60000⟩ (by decide)

/-! ## Input validator (src/app/api/generate/route.ts, lines 6-25)

The zod schema `inputSchema` checks every field and collects one issue per
violated constraint; `parse` either returns the typed record or throws a
`ZodError` whose `errors` array lists all issues.  Issues are represented
here by the path (field name) they carry. -/

/-- `page_size: z.enum(['A4', 'Letter'])` value space. -/
inductive PageSize where
  | A4
  | Letter
deriving DecidableEq

/-- The validated record produced by `inputSchema.parse` (the shape used by
the prompt template). -/
structure LessonRequest where
  curriculum : String
  subject : String
  grade : String
  topic : String
  objectives : List String
  duration : String
  support_level_desc : String
  core_level_desc : String
  extension_level_desc : String
  n_support : Nat
  n_core : Nat
  n_extension : Nat
  constraints : String
  materials : String
  include_teacher_notes : Bool
  include_rubric : Bool
  page_size : PageSize
  max_pages : Nat
deriving DecidableEq

/-- The raw, well-typed but unvalidated JSON payload presented to
`inputSchema.parse`.  Numeric fields carry arbitrary JSON numbers, modelled
as rationals: `z.number()` has no `.int()` refinement, so the schema
accepts non-integer values such as 2.5 and only its `.min`/`.max` bounds
are checked.  `page_size` is a raw string checked against the enum. -/
structure RawPayload where
  curriculum : String
  subject : String
  grade : String
  topic : String
  objectives : List String
  duration : String
  support_level_desc : String
  core_level_desc : String
  extension_level_desc : String
  n_support : Rat
  n_core : Rat
  n_extension : Rat
  constraints : String
  materials : String
  include_teacher_notes : Bool
  include_rubric : Bool
  page_size : String
  max_pages : Rat
deriving DecidableEq

/-- `z.string().min(1)`: one issue when the string is shorter than 1. -/
def strMin1Issues (name : String) (s : String) : List String :=
  if s.length < 1 then [name] else []

/-- `z.number().min(lo).max(hi)`: one issue when the value is out of range
(at most one of the two bounds can fail); no integrality check. -/
def numRangeIssues (name : String) (v lo hi : Rat) : List String :=
  if v < lo then [name] else if hi < v then [name] else []

/-- `z.array(z.string()).min(lo).max(hi)` on the array length. -/
def arrayLenIssues (name : String) (len lo hi : Nat) : List String :=
  if len < lo then [name] else if hi < len then [name] else []

/-- `z.enum(['A4', 'Letter'])`: one issue when the value is neither of the
two literals. -/
def pageEnumIssues (name : String) (s : String) : List String :=
  if s = "A4" ∨ s = "Letter" then [] else [name]

/-- All issues collected by `inputSchema` on a raw payload, in schema key
order.  `constraints`, `materials` (bare `z.string()`) and the two
`z.boolean()` fields have no value constraint and contribute nothing. -/
def inputSchemaIssues (p : RawPayload) : List String :=
  strMin1Issues "curriculum" p.curriculum ++
  strMin1Issues "subject" p.subject ++
  strMin1Issues "grade" p.grade ++
  strMin1Issues "topic" p.topic ++
  arrayLenIssues "objectives" p.objectives.length 1 3 ++
  strMin1Issues "duration" p.duration ++
  strMin1Issues "support_level_desc" p.support_level_desc ++
  strMin1Issues "core_level_desc" p.core_level_desc ++
  strMin1Issues "extension_level_desc" p.extension_level_desc ++
  numRangeIssues "n_support" p.n_support 1 10 ++
  numRangeIssues "n_core" p.n_core 1 15 ++
  numRangeIssues "n_extension" p.n_extension 1 10 ++
  pageEnumIssues "page_size" p.page_size ++
  numRangeIssues "max_pages" p.max_pages 1 10

/-- Decode of the already-validated enum value (only reached when the value
is one of the two literals). -/
def pageSizeOfString (s : String) : PageSize :=
  if s = "Letter" then PageSize.Letter else PageSize.A4

/-- `inputSchema.parse`: the typed record on success, otherwise the
`ZodError` issue list.  In the source the validated record is the same
JSON object; the `LessonRequest` model here keeps natural-number counts
(the shape the prompt claims quantify over), so the in-range rational is
converted by flooring — identical to the source on integer-valued
payloads, and no claim inspects these fields of a non-integer accepted
payload. -/
def inputSchemaParse (p : RawPayload) : Except (List String) LessonRequest :=
  match inputSchemaIssues p with
  | [] =>
    Except.ok
      { curriculum := p.curriculum
        subject := p.subject
        grade := p.grade
        topic := p.topic
        objectives := p.objectives
        duration := p.duration
        support_level_desc := p.support_level_desc
        core_level_desc := p.core_level_desc
        extension_level_desc := p.extension_level_desc
        n_support := p.n_support.floor.toNat
        n_core := p.n_core.floor.toNat
        n_extension := p.n_extension.floor.toNat
        constraints := p.constraints
        materials := p.materials
        include_teacher_notes := p.include_teacher_notes
        include_rubric := p.include_rubric
        page_size := pageSizeOfString p.page_size
        max_pages := p.max_pages.floor.toNat }
  | issue :: more => Except.error (issue :: more)

/-- Modelled from the spec, section 3: the per-field constraints a payload
must satisfy.  The numeric fields are declared *integer* with their
ranges, so a numeric field is violated when its value is not an integer
(reduced denominator 1) in range.  `SpecFieldViolated p f` holds when
field `f` of payload `p` breaks its section-3 constraint. -/
@[reducible] def SpecFieldViolated (p : RawPayload) (f : String) : Prop :=
  (f = "curriculum" ∧ p.curriculum = "") ∨
  (f = "subject" ∧ p.subject = "") ∨
  (f = "grade" ∧ p.grade = "") ∨
  (f = "topic" ∧ p.topic = "") ∨
  (f = "objectives" ∧ ¬ (1 ≤ p.objectives.length ∧ p.objectives.length ≤ 3)) ∨
  (f = "duration" ∧ p.duration = "") ∨
  (f = "support_level_desc" ∧ p.support_level_desc = "") ∨
  (f = "core_level_desc" ∧ p.core_level_desc = "") ∨
  (f = "extension_level_desc" ∧ p.extension_level_desc = "") ∨
  (f = "n_support" ∧
    ¬ (p.n_support.den = 1 ∧ 1 ≤ p.n_support ∧ p.n_support ≤ 10)) ∨
  (f = "n_core" ∧ ¬ (p.n_core.den = 1 ∧ 1 ≤ p.n_core ∧ p.n_core ≤ 15)) ∨
  (f = "n_extension" ∧
    ¬ (p.n_extension.den = 1 ∧ 1 ≤ p.n_extension ∧ p.n_extension ≤ 10)) ∨
  (f = "page_size" ∧ p.page_size ≠ "A4" ∧ p.page_size ≠ "Letter") ∨
  (f = "max_pages" ∧
    ¬ (p.max_pages.den = 1 ∧ 1 ≤ p.max_pages ∧ p.max_pages ≤ 10))

/-- The per-field constraints the zod schema actually checks: the same as
spec section 3 except that the numeric fields are only range-checked —
`z.number().min(..).max(..)` carries no integrality requirement. -/
@[reducible] def SchemaFieldViolated (p : RawPayload) (f : String) : Prop :=
  (f = "curriculum" ∧ p.curriculum = "") ∨
  (f = "subject" ∧ p.subject = "") ∨
  (f = "grade" ∧ p.grade = "") ∨
  (f = "topic" ∧ p.topic = "") ∨
  (f = "objectives" ∧ ¬ (1 ≤ p.objectives.length ∧ p.objectives.length ≤ 3)) ∨
  (f = "duration" ∧ p.duration = "") ∨
  (f = "support_level_desc" ∧ p.support_level_desc = "") ∨
  (f = "core_level_desc" ∧ p.core_level_desc = "") ∨
  (f = "extension_level_desc" ∧ p.extension_level_desc = "") ∨
  (f = "n_support" ∧ ¬ (1 ≤ p.n_support ∧ p.n_support ≤ 10)) ∨
  (f = "n_core" ∧ ¬ (1 ≤ p.n_core ∧ p.n_core ≤ 15)) ∨
  (f = "n_extension" ∧ ¬ (1 ≤ p.n_extension ∧ p.n_extension ≤ 10)) ∨
  (f = "page_size" ∧ p.page_size ≠ "A4" ∧ p.page_size ≠ "Letter") ∨
  (f = "max_pages" ∧ ¬ (1 ≤ p.max_pages ∧ p.max_pages ≤ 10))

/-- All numeric fields of the payload are integer-valued (a rational is an
integer iff its reduced denominator is 1). -/
def IntegralNumerics (p : RawPayload) : Prop :=
  p.n_support.den = 1 ∧ p.n_core.den = 1 ∧ p.n_extension.den = 1 ∧
    p.max_pages.den = 1

theorem str_length_lt_one_iff (s : String) : s.length < 1 ↔ s = "" := by
  constructor
  · intro h
    apply String.ext
    have h0 : s.data.length = 0 := Nat.lt_one_iff.mp h
    have hnil : s.data = [] := List.length_eq_zero.mp h0
    rw [hnil]
  · intro h; subst h; decide

theorem mem_strMin1Issues (f name s : String) :
    f ∈ strMin1Issues name s ↔ f = name ∧ s = "" := by
  unfold strMin1Issues
  by_cases h : s.length < 1
  · simp [h, (str_length_lt_one_iff s).mp h]
  · have hne : ¬ s = "" := fun he => h ((str_length_lt_one_iff s).mpr he)
    simp [h, hne]

theorem mem_numRangeIssues (f name : String) (v lo hi : Rat) :
    f ∈ numRangeIssues name v lo hi ↔ f = name ∧ ¬ (lo ≤ v ∧ v ≤ hi) := by
  unfold numRangeIssues
  rw [(by rw [not_and_or, not_le, not_le] :
    (¬ (lo ≤ v ∧ v ≤ hi)) ↔ (v < lo ∨ hi < v))]
  by_cases h1 : v < lo
  · simp [h1]
  · by_cases h2 : hi < v <;> simp [h1, h2]

theorem mem_arrayLenIssues (f name : String) (len lo hi : Nat) :
    f ∈ arrayLenIssues name len lo hi ↔ f = name ∧ ¬ (lo ≤ len ∧ len ≤ hi) := by
  unfold arrayLenIssues
  rw [(by omega : (¬ (lo ≤ len ∧ len ≤ hi)) ↔ (len < lo ∨ hi < len))]
  by_cases h1 : len < lo
  · simp [h1]
  · by_cases h2 : hi < len <;> simp [h1, h2]

theorem mem_pageEnumIssues (f name s : String) :
    f ∈ pageEnumIssues name s ↔ f = name ∧ s ≠ "A4" ∧ s ≠ "Letter" := by
  unfold pageEnumIssues
  by_cases h4 : s = "A4"
  · simp [h4]
  · by_cases hL : s = "Letter"
    · simp [h4, hL]
    · simp [h4, hL]

/-- The validator's issue list lists exactly the fields violated under the
schema's own checks (section 3 minus integrality). -/
theorem mem_inputSchemaIssues_iff (p : RawPayload) (f : String) :
    f ∈ inputSchemaIssues p ↔ SchemaFieldViolated p f := by
  simp only [inputSchemaIssues, SchemaFieldViolated, List.mem_append,
    mem_strMin1Issues, mem_numRangeIssues, mem_arrayLenIssues,
    mem_pageEnumIssues, or_assoc]

/-! ## Prompt assembler (src/app/api/generate/route.ts, lines 65-174)

The handler builds one template-literal string `systemPrompt` from the
validated inputs.  The string is modelled as the list of its lines
(`promptLines`) joined with a newline between consecutive elements
(`joinLines`); that join reproduces the TypeScript template literal
byte for byte.  The two `.join('\n')` objective splices and the two
ternary conditionals are the only non-literal line structure and get their
own definitions. -/

/-- JavaScript template interpolation of a boolean. -/
def boolStr : Bool → String
  | true => "true"
  | false => "false"

/-- Template interpolation of the validated `page_size` enum value. -/
def pageSizeStr : PageSize → String
  | PageSize.A4 => "A4"
  | PageSize.Letter => "Letter"

/-- The INPUT line `- Learning objectives (bullets): ` followed by the
splice of `objectives.map(obj => \`• $\x7bobj\x7d\`).join('\n')`: the first
bullet continues the prefix line, every further bullet is its own line. -/
def bulletObjectiveLines (objs : List String) : List String :=
  match objs with
  | [] => ["- Learning objectives (bullets): "]
  | o :: rest =>
      ("- Learning objectives (bullets): " ++ ("• " ++ o)) ::
        rest.map (fun o => "• " ++ o)

/-- The OUTPUT-FORMAT splice of
`objectives.map(obj => \`- $\x7bobj\x7d\`).join('\n')` standing on its own
template line (the empty join leaves an empty line). -/
def dashObjectiveLines (objs : List String) : List String :=
  match objs with
  | [] => [""]
  | _ :: _ => objs.map (fun o => "- " ++ o)

/-- The SUPPORT questions block: a header announcing the requested count and
the fixed numbered placeholders. -/
def supportQuestionLines (r : LessonRequest) : List String :=
  ["### Questions (" ++ toString r.n_support ++ " items)",
   "1) ...",
   "2) ...",
   "..."]

/-- The CORE questions block. -/
def coreQuestionLines (r : LessonRequest) : List String :=
  ["### Questions (" ++ toString r.n_core ++ " items)",
   "1) ...",
   "2) ...",
   "..."]

/-- The EXTENSION questions block. -/
def extensionQuestionLines (r : LessonRequest) : List String :=
  ["### Questions (" ++ toString r.n_extension ++ " items)",
   "1) ...",
   "2) ...",
   "..."]

/-- The `include_rubric ? \`...\` : ''` ternary: the rubric block when true,
the empty splice (one empty line) when false. -/
def rubricLines (b : Bool) : List String :=
  if b then
    ["---",
     "",
     "## QUICK RUBRIC (4 levels)",
     "",
     "| Criteria | Beginning | Developing | Proficient | Advanced |",
     "|---|---|---|---|---|",
     "| Accuracy | … | … | … | … |",
     "| Reasoning/Working | … | … | … | … |",
     "| Communication | … | … | … | … |"]
  else [""]

/-- The `include_teacher_notes ? \`...\` : ''` ternary. -/
def teacherNotesLines (b : Bool) : List String :=
  if b then
    ["---",
     "",
     "## TEACHER NOTES (not for students)",
     "",
     "- Misconceptions to watch: …",
     "- Fast finishes: …",
     "- Differentiation moves: …",
     "- Standards mapping: …"]
  else [""]

/-- The lines of the system prompt, in template order. -/
def promptLines (r : LessonRequest) : List String :=
  ["You are \"Worksheet Maker v0\": a teacher-first generator of PRINTABLE worksheets.",
   "",
   "Your job: given a curriculum topic, create differentiated student worksheets + answer keys that can be exported to PDF with minimal editing.",
   "",
   "RULES",
   "- Output ONLY the worksheet content in Markdown. No chit-chat.",
   "- Use " ++ pageSizeStr r.page_size ++ " with 1\" margins. No images or links.",
   "- Keep headings, numbering, and spacing consistent. Avoid overly long lines.",
   "- Add a top header with: **School:** ______   **Class:** ______   **Name:** ______   **Date:** ______",
   "- Three tiers of differentiation: Support, Core, Extension (unless overridden).",
   "- Provide an Answer Key for every item.",
   "- If diagrams are needed, describe them as text placeholders: [diagram: …].",
   "- Keep to ≤ " ++ toString r.max_pages ++ " pages total (soft limit). Prefer concise tasks over long prose.",
   "",
   "INPUT",
   "- Locale/Curriculum: " ++ r.curriculum,
   "- Subject: " ++ r.subject,
   "- Year/Grade: " ++ r.grade,
   "- Topic: " ++ r.topic] ++
  bulletObjectiveLines r.objectives ++
  ["- Time available: " ++ r.duration,
   "- Difficulty per tier: " ++ r.support_level_desc ++ " | " ++ r.core_level_desc ++ " | " ++ r.extension_level_desc,
   "- Number of questions per tier: " ++ toString r.n_support ++ " / " ++ toString r.n_core ++ " / " ++ toString r.n_extension,
   "- Constraints & accommodations: " ++ r.constraints,
   "- Materials allowed: " ++ r.materials,
   "- Include teacher notes? " ++ boolStr r.include_teacher_notes,
   "- Include quick rubric? " ++ boolStr r.include_rubric,
   "- Page size: " ++ pageSizeStr r.page_size,
   "",
   "OUTPUT FORMAT (exactly this structure)",
   "# " ++ r.subject ++ " — " ++ r.topic ++ " (" ++ r.grade ++ ")",
   "",
   "**Aligned to:** " ++ r.curriculum,
   "",
   "**Learning objectives:**"] ++
  dashObjectiveLines r.objectives ++
  ["",
   "**Time:** " ++ r.duration ++ "   **Materials:** " ++ r.materials,
   "",
   "---",
   "",
   "## SUPPORT",
   "",
   "Brief intro (1–2 sentences) at an accessible reading level. Include scaffolds (sentence starters, worked example, vocabulary box).",
   ""] ++
  supportQuestionLines r ++
  ["",
   "### Mini self-check",
   "- I can…",
   "- I need help with…",
   "",
   "---",
   "",
   "## CORE",
   "",
   "One-sentence context. Balanced item types (MCQ/short answer/structured).",
   ""] ++
  coreQuestionLines r ++
  ["",
   "---",
   "",
   "## EXTENSION",
   "",
   "Richer application or reasoning. Multi-step, pattern/generalization, or explain-your-thinking prompts.",
   ""] ++
  extensionQuestionLines r ++
  ["",
   "---",
   "",
   "## ANSWER KEY",
   "",
   "- Support",
   "  1) …",
   "  2) …",
   "- Core",
   "  1) …",
   "  2) …",
   "- Extension",
   "  1) …",
   "  2) …",
   ""] ++
  rubricLines r.include_rubric ++
  [""] ++
  teacherNotesLines r.include_teacher_notes ++
  ["",
   "=== End of Worksheet ==="]

/-- Join lines with a single newline between consecutive elements. -/
def joinLines : List String → String
  | [] => ""
  | [l] => l
  | l :: l' :: ls => l ++ "\n" ++ joinLines (l' :: ls)

/-- The `systemPrompt` template literal of the generate handler. -/
def systemPrompt (r : LessonRequest) : String :=
  joinLines (promptLines r)

theorem mem_bulletObjectiveLines_cases (t : String) (objs : List String)
    (h : t ∈ bulletObjectiveLines objs) :
    (∃ v, t = "- Learning objectives (bullets): " ++ v) ∨
      ∃ o, t = "• " ++ o := by
  cases objs with
  | nil =>
      simp [bulletObjectiveLines] at h
      exact Or.inl ⟨"", by simp [h]⟩
  | cons o rest =>
      simp [bulletObjectiveLines] at h
      rcases h with h | ⟨o', _, rfl⟩
      · exact Or.inl ⟨"• " ++ o, h⟩
      · exact Or.inr ⟨o', rfl⟩

theorem mem_dashObjectiveLines_cases (t : String) (objs : List String)
    (h : t ∈ dashObjectiveLines objs) :
    t = "" ∨ ∃ o, t = "- " ++ o := by
  cases objs with
  | nil => simp [dashObjectiveLines] at h; exact Or.inl h
  | cons o rest =>
      simp [dashObjectiveLines] at h
      rcases h with h | ⟨o', _, h⟩
      · exact Or.inr ⟨o, h⟩
      · exact Or.inr ⟨o', h.symm⟩

/-! ## Structure of the assembled prompt -/

theorem append_ne_of_not_prefix (p x t : String)
    (h : ¬ p.data <+: t.data) : p ++ x ≠ t := by
  intro he
  have hd := congrArg String.data he
  rw [String.data_append] at hd
  exact h ⟨x.data, hd⟩

theorem joinLines_cons (l : String) (ls : List String) (h : ls ≠ []) :
    joinLines (l :: ls) = l ++ "\n" ++ joinLines ls := by
  cases ls with
  | nil => exact absurd rfl h
  | cons a t => rfl

theorem infix_of_infix_append_left {x y : List Char} (z : List Char)
    (h : x <:+: y) : x <:+: z ++ y := by
  obtain ⟨s, t, rfl⟩ := h
  exact ⟨z ++ s, t, by simp⟩

theorem joinLines_infix_left (M L : List String) (hM : M ≠ []) :
    (joinLines M).data <:+: (joinLines (M ++ L)).data := by
  cases L with
  | nil => simp
  | cons b L' =>
      have hjoin : joinLines (M ++ b :: L') =
          joinLines M ++ "\n" ++ joinLines (b :: L') := by
        induction M with
        | nil => exact absurd rfl hM
        | cons a A ih =>
            cases A with
            | nil => exact joinLines_cons a (b :: L') (by simp)
            | cons a' A' =>
                rw [List.cons_append,
                  joinLines_cons a ((a' :: A') ++ b :: L') (by simp),
                  ih (by simp), joinLines_cons a (a' :: A') (by simp)]
                simp [String.append_assoc]
      rw [hjoin]
      exact ⟨[], ("\n" ++ joinLines (b :: L')).data,
        by simp [String.data_append]⟩

theorem joinLines_infix_lift (A rest : List String) (x : List Char)
    (hrest : rest ≠ []) (h : x <:+: (joinLines rest).data) :
    x <:+: (joinLines (A ++ rest)).data := by
  induction A with
  | nil => simpa using h
  | cons a A ih =>
      have hne : A ++ rest ≠ [] := by
        intro hc
        exact hrest (List.append_eq_nil.mp hc).2
      rw [List.cons_append, joinLines_cons a (A ++ rest) hne]
      exact infix_of_infix_append_left _ ih

/-- A numbered question placeholder line: decimal digits followed by the
literal `) ...`. -/
def isNumberedPlaceholder (s : String) : Bool :=
  !(s.data.takeWhile Char.isDigit).isEmpty &&
    s.data.dropWhile Char.isDigit == (") ...").data

/-- The lines of a prompt section: from its heading line (inclusive) up to
the next heading given. -/
def sectionLines (r : LessonRequest) (startMark endMark : String) :
    List String :=
  ((promptLines r).dropWhile (fun l => l != startMark)).takeWhile
    (fun l => l != endMark)

/-! ### Counting the numbered placeholder lines -/

/-- The first character, when present, is not a decimal digit. -/
def headNotDigit : List Char → Bool
  | [] => true
  | c :: _ => !c.isDigit

theorem isNumberedPlaceholder_false_of_head (s : String)
    (h : headNotDigit s.data = true) : isNumberedPlaceholder s = false := by
  unfold isNumberedPlaceholder
  cases hd : s.data with
  | nil => simp [hd]
  | cons c rest =>
      unfold headNotDigit at h
      rw [hd] at h
      simp only [Bool.not_eq_true'] at h
      simp [List.takeWhile_cons, h]

theorem headNotDigit_append (p y : List Char) (hne : p ≠ []) :
    headNotDigit (p ++ y) = headNotDigit p := by
  cases p with
  | nil => exact absurd rfl hne
  | cons c rest => simp [headNotDigit]

theorem isNumberedPlaceholder_append_false (p x : String)
    (hp : headNotDigit p.data = true) (hne : p.data ≠ []) :
    isNumberedPlaceholder (p ++ x) = false := by
  apply isNumberedPlaceholder_false_of_head
  rw [String.data_append, headNotDigit_append _ _ hne]
  exact hp

@[simp] theorem nplaceholder_pre1 (x : String) :
    isNumberedPlaceholder ("- Use " ++ x) = false :=
  isNumberedPlaceholder_append_false _ _ (by decide) (by decide)

@[simp] theorem nplaceholder_pre2 (x : String) :
    isNumberedPlaceholder ("- Keep to ≤ " ++ x) = false :=
  isNumberedPlaceholder_append_false _ _ (by decide) (by decide)

@[simp] theorem nplaceholder_pre3 (x : String) :
    isNumberedPlaceholder ("- Locale/Curriculum: " ++ x) = false :=
  isNumberedPlaceholder_append_false _ _ (by decide) (by decide)

@[simp] theorem nplaceholder_pre4 (x : String) :
    isNumberedPlaceholder ("- Subject: " ++ x) = false :=
  isNumberedPlaceholder_append_false _ _ (by decide) (by decide)

@[simp] theorem nplaceholder_pre5 (x : String) :
    isNumberedPlaceholder ("- Year/Grade: " ++ x) = false :=
  isNumberedPlaceholder_append_false _ _ (by decide) (by decide)

@[simp] theorem nplaceholder_pre6 (x : String) :
    isNumberedPlaceholder ("- Topic: " ++ x) = false :=
  isNumberedPlaceholder_append_false _ _ (by decide) (by decide)

@[simp] theorem nplaceholder_pre7 (x : String) :
    isNumberedPlaceholder ("- Time available: " ++ x) = false :=
  isNumberedPlaceholder_append_false _ _ (by decide) (by decide)

@[simp] theorem nplaceholder_pre8 (x : String) :
    isNumberedPlaceholder ("- Difficulty per tier: " ++ x) = false :=
  isNumberedPlaceholder_append_false _ _ (by decide) (by decide)

@[simp] theorem nplaceholder_pre9 (x : String) :
    isNumberedPlaceholder ("- Number of questions per tier: " ++ x) = false :=
  isNumberedPlaceholder_append_false _ _ (by decide) (by decide)

@[simp] theorem nplaceholder_pre10 (x : String) :
    isNumberedPlaceholder ("- Constraints & accommodations: " ++ x) = false :=
  isNumberedPlaceholder_append_false _ _ (by decide) (by decide)

@[simp] theorem nplaceholder_pre11 (x : String) :
    isNumberedPlaceholder ("- Materials allowed: " ++ x) = false :=
  isNumberedPlaceholder_append_false _ _ (by decide) (by decide)

@[simp] theorem nplaceholder_pre12 (x : String) :
    isNumberedPlaceholder ("- Include teacher notes? " ++ x) = false :=
  isNumberedPlaceholder_append_false _ _ (by decide) (by decide)

@[simp] theorem nplaceholder_pre13 (x : String) :
    isNumberedPlaceholder ("- Include quick rubric? " ++ x) = false :=
  isNumberedPlaceholder_append_false _ _ (by decide) (by decide)

@[simp] theorem nplaceholder_pre14 (x : String) :
    isNumberedPlaceholder ("- Page size: " ++ x) = false :=
  isNumberedPlaceholder_append_false _ _ (by decide) (by decide)

@[simp] theorem nplaceholder_pre15 (x : String) :
    isNumberedPlaceholder ("# " ++ x) = false :=
  isNumberedPlaceholder_append_false _ _ (by decide) (by decide)

@[simp] theorem nplaceholder_pre16 (x : String) :
    isNumberedPlaceholder ("**Aligned to:** " ++ x) = false :=
  isNumberedPlaceholder_append_false _ _ (by decide) (by decide)

@[simp] theorem nplaceholder_pre17 (x : String) :
    isNumberedPlaceholder ("**Time:** " ++ x) = false :=
  isNumberedPlaceholder_append_false _ _ (by decide) (by decide)

@[simp] theorem nplaceholder_pre18 (x : String) :
    isNumberedPlaceholder ("### Questions (" ++ x) = false :=
  isNumberedPlaceholder_append_false _ _ (by decide) (by decide)

@[simp] theorem countP_bulletObjectiveLines (objs : List String) :
    (bulletObjectiveLines objs).countP isNumberedPlaceholder = 0 := by
  rw [List.countP_eq_zero]
  intro a ha
  rcases mem_bulletObjectiveLines_cases a objs ha with ⟨v, rfl⟩ | ⟨o, rfl⟩
  · simp [isNumberedPlaceholder_append_false
      "- Learning objectives (bullets): " v (by decide) (by decide)]
  · simp [isNumberedPlaceholder_append_false "• " o (by decide) (by decide)]

@[simp] theorem countP_dashObjectiveLines (objs : List String) :
    (dashObjectiveLines objs).countP isNumberedPlaceholder = 0 := by
  rw [List.countP_eq_zero]
  intro a ha
  rcases mem_dashObjectiveLines_cases a objs ha with rfl | ⟨o, rfl⟩
  · decide
  · simp [isNumberedPlaceholder_append_false "- " o (by decide) (by decide)]

@[simp] theorem countP_rubricLines (b : Bool) :
    (rubricLines b).countP isNumberedPlaceholder = 0 := by
  cases b <;> decide

@[simp] theorem countP_teacherNotesLines (b : Bool) :
    (teacherNotesLines b).countP isNumberedPlaceholder = 0 := by
  cases b <;> decide

theorem ph1 : isNumberedPlaceholder "1) ..." = true := by decide

theorem ph2 : isNumberedPlaceholder "2) ..." = true := by decide

theorem ph3 : isNumberedPlaceholder "..." = false := by decide

@[simp] theorem countP_supportQuestionLines (r : LessonRequest) :
    (supportQuestionLines r).countP isNumberedPlaceholder = 2 := by
  simp [supportQuestionLines, List.countP_cons, String.append_assoc,
    ph1, ph2, ph3]

@[simp] theorem countP_coreQuestionLines (r : LessonRequest) :
    (coreQuestionLines r).countP isNumberedPlaceholder = 2 := by
  simp [coreQuestionLines, List.countP_cons, String.append_assoc,
    ph1, ph2, ph3]

@[simp] theorem countP_extensionQuestionLines (r : LessonRequest) :
    (extensionQuestionLines r).countP isNumberedPlaceholder = 2 := by
  simp [extensionQuestionLines, List.countP_cons, String.append_assoc,
    ph1, ph2, ph3]

theorem prompt_total_placeholders (r : LessonRequest) :
    (promptLines r).countP isNumberedPlaceholder = 6 := by
  simp only [promptLines, List.countP_append, List.countP_cons,
    String.append_assoc, countP_bulletObjectiveLines,
    countP_dashObjectiveLines, countP_rubricLines, countP_teacherNotesLines,
    countP_supportQuestionLines, countP_coreQuestionLines,
    countP_extensionQuestionLines, nplaceholder_pre1, nplaceholder_pre2,
    nplaceholder_pre3, nplaceholder_pre4, nplaceholder_pre5,
    nplaceholder_pre6, nplaceholder_pre7, nplaceholder_pre8,
    nplaceholder_pre9, nplaceholder_pre10, nplaceholder_pre11,
    nplaceholder_pre12, nplaceholder_pre13, nplaceholder_pre14,
    nplaceholder_pre15, nplaceholder_pre16, nplaceholder_pre17,
    nplaceholder_pre18]
  decide

/-- C1 (amended): in every assembled prompt, each tier section carries a
questions header stating the requested per-tier count — `### Questions (n
items)` with n = `n_support` / `n_core` / `n_extension` — but the numbered
question placeholders under each header are the fixed pair `1) ...`,
`2) ...` followed by an ellipsis line, independent of the requested counts:
the whole four-line block is contained verbatim in the prompt text, and the
total number of numbered placeholder lines the assembler emits is always 6
(2 per tier), not `n_support + n_core + n_extension`. -/
theorem prompt_tier_question_blocks (r : LessonRequest) :
    ((joinLines (supportQuestionLines r)).data <:+: (systemPrompt r).data ∧
      (joinLines (coreQuestionLines r)).data <:+: (systemPrompt r).data ∧
      (joinLines (extensionQuestionLines r)).data <:+:
        (systemPrompt r).data) ∧
    (promptLines r).countP isNumberedPlaceholder = 6 := by
  refine ⟨?_, prompt_total_placeholders r⟩
  unfold systemPrompt promptLines
  simp only [List.append_assoc]
  refine ⟨?_, ?_, ?_⟩
  · apply joinLines_infix_lift _ _ _ (by simp)
    apply joinLines_infix_lift _ _ _ (by simp)
    apply joinLines_infix_lift _ _ _ (by simp)
    apply joinLines_infix_lift _ _ _ (by simp)
    apply joinLines_infix_lift _ _ _ (by simp)
    exact joinLines_infix_left _ _ (by simp [supportQuestionLines])
  · apply joinLines_infix_lift _ _ _ (by simp)
    apply joinLines_infix_lift _ _ _ (by simp)
    apply joinLines_infix_lift _ _ _ (by simp)
    apply joinLines_infix_lift _ _ _ (by simp)
    apply joinLines_infix_lift _ _ _ (by simp)
    apply joinLines_infix_lift _ _ _ (by simp)
    apply joinLines_infix_lift _ _ _ (by simp)
    exact joinLines_infix_left _ _ (by simp [coreQuestionLines])
  · apply joinLines_infix_lift _ _ _ (by simp)
    apply joinLines_infix_lift _ _ _ (by simp)
    apply joinLines_infix_lift _ _ _ (by simp)
    apply joinLines_infix_lift _ _ _ (by simp)
    apply joinLines_infix_lift _ _ _ (by simp)
    apply joinLines_infix_lift _ _ _ (by simp)
    apply joinLines_infix_lift _ _ _ (by simp)
    apply joinLines_infix_lift _ _ _ (by simp)
    apply joinLines_infix_lift _ _ _ (by simp)
    exact joinLines_infix_left _ _ (by simp [extensionQuestionLines])

/-- The scenario input of spec §8: n_support 3, n_core 5, n_extension 2,
teacher notes on, rubric off. -/
def scenarioRequest : LessonRequest :=
  { curriculum := "CCSS", subject := "Math", grade := "Grade 5",
    topic := "Fractions", objectives := ["Add fractions"],
    duration := "45 min", support_level_desc := "x",
    core_level_desc := "y", extension_level_desc := "z",
    n_support := 3, n_core := 5, n_extension := 2,
    constraints := "", materials := "",
    include_teacher_notes := true, include_rubric := false,
    page_size := PageSize.A4, max_pages := 3 }

/-- C1 (counterexample): at the spec's own scenario input, which requests
`n_support = 3`, the Support section of the assembled prompt contains 2
numbered question placeholders, not 3 — and likewise the Core and Extension
sections contain 2 each instead of 5 and 2, for a total of 6 rather than
`n_support + n_core + n_extension = 10`. -/
theorem prompt_placeholder_count_counterexample :
    (sectionLines scenarioRequest "## SUPPORT" "## CORE").countP
        isNumberedPlaceholder = 2 ∧
    scenarioRequest.n_support = 3 ∧
    ¬ (sectionLines scenarioRequest "## SUPPORT" "## CORE").countP
        isNumberedPlaceholder = scenarioRequest.n_support := by
  refine ⟨by decide, rfl, by decide⟩

theorem marker_notin_bulletObjectiveLines (t : String)
    (h1 : ¬ ("- Learning objectives (bullets): ").data <+: t.data)
    (h2 : ¬ ("• ").data <+: t.data) (objs : List String) :
    t ∉ bulletObjectiveLines objs := by
  intro hmem
  rcases mem_bulletObjectiveLines_cases t objs hmem with ⟨v, rfl⟩ | ⟨o, rfl⟩
  · exact h1 ⟨v.data, (String.data_append _ _).symm⟩
  · exact h2 ⟨o.data, (String.data_append _ _).symm⟩

theorem marker_notin_dashObjectiveLines (t : String) (h0 : t ≠ "")
    (h1 : ¬ ("- ").data <+: t.data) (objs : List String) :
    t ∉ dashObjectiveLines objs := by
  intro hmem
  rcases mem_dashObjectiveLines_cases t objs hmem with rfl | ⟨o, rfl⟩
  · exact h0 rfl
  · exact h1 ⟨o.data, (String.data_append _ _).symm⟩

theorem rubricMarker_notin_teacherNotes (b : Bool) :
    "## QUICK RUBRIC (4 levels)" ∉ teacherNotesLines b := by
  cases b <;> decide

theorem notesMarker_notin_rubric (b : Bool) :
    "## TEACHER NOTES (not for students)" ∉ rubricLines b := by
  cases b <;> decide

theorem rubricMarker_notin_promptLines (r : LessonRequest)
    (hb : r.include_rubric = false) :
    "## QUICK RUBRIC (4 levels)" ∉ promptLines r := by
  intro hmem
  simp [promptLines, rubricLines, hb, supportQuestionLines,
    coreQuestionLines, extensionQuestionLines, String.append_assoc] at hmem
  repeat
    first
      | (rcases hmem with h | hmem
         first
           | exact absurd h (by decide)
           | exact append_ne_of_not_prefix _ _ _ (by decide) h.symm
           | exact marker_notin_bulletObjectiveLines _ (by decide)
               (by decide) _ h
           | exact marker_notin_dashObjectiveLines _ (by decide)
               (by decide) _ h
           | exact rubricMarker_notin_teacherNotes _ h)
      | exact absurd hmem (by decide)
      | exact append_ne_of_not_prefix _ _ _ (by decide) hmem.symm
      | exact marker_notin_bulletObjectiveLines _ (by decide) (by decide) _
          hmem
      | exact marker_notin_dashObjectiveLines _ (by decide) (by decide) _
          hmem
      | exact rubricMarker_notin_teacherNotes _ hmem

theorem notesMarker_notin_promptLines (r : LessonRequest)
    (hb : r.include_teacher_notes = false) :
    "## TEACHER NOTES (not for students)" ∉ promptLines r := by
  intro hmem
  simp [promptLines, teacherNotesLines, hb, supportQuestionLines,
    coreQuestionLines, extensionQuestionLines, String.append_assoc] at hmem
  repeat
    first
      | (rcases hmem with h | hmem
         first
           | exact absurd h (by decide)
           | exact append_ne_of_not_prefix _ _ _ (by decide) h.symm
           | exact marker_notin_bulletObjectiveLines _ (by decide)
               (by decide) _ h
           | exact marker_notin_dashObjectiveLines _ (by decide)
               (by decide) _ h
           | exact notesMarker_notin_rubric _ h)
      | exact absurd hmem (by decide)
      | exact append_ne_of_not_prefix _ _ _ (by decide) hmem.symm
      | exact marker_notin_bulletObjectiveLines _ (by decide) (by decide) _
          hmem
      | exact marker_notin_dashObjectiveLines _ (by decide) (by decide) _
          hmem
      | exact notesMarker_notin_rubric _ hmem

theorem rubricMarker_mem_promptLines (r : LessonRequest)
    (hb : r.include_rubric = true) :
    "## QUICK RUBRIC (4 levels)" ∈ promptLines r := by
  simp [promptLines, rubricLines, hb]

theorem notesMarker_mem_promptLines (r : LessonRequest)
    (hb : r.include_teacher_notes = true) :
    "## TEACHER NOTES (not for students)" ∈ promptLines r := by
  simp [promptLines, teacherNotesLines, hb]

/-- C5: the Quick Rubric section heading appears among the assembled
prompt's lines iff `include_rubric` is true and the Teacher Notes section
heading appears iff `include_teacher_notes` is true; when a flag is set the
whole optional block is contained verbatim in the prompt string; and the
assembly is a pure function of the request (no I/O, no state), so
assembling the same request twice trivially yields the identical string. -/
theorem rubric_and_teacher_notes_sections (r : LessonRequest) :
    (("## QUICK RUBRIC (4 levels)" ∈ promptLines r) ↔
        r.include_rubric = true) ∧
    (("## TEACHER NOTES (not for students)" ∈ promptLines r) ↔
        r.include_teacher_notes = true) ∧
    (r.include_rubric = true →
      (joinLines (rubricLines true)).data <:+: (systemPrompt r).data) ∧
    (r.include_teacher_notes = true →
      (joinLines (teacherNotesLines true)).data <:+: (systemPrompt r).data) ∧
    systemPrompt r = systemPrompt r := by
  refine ⟨?_, ?_, ?_, ?_, rfl⟩
  · cases hb : r.include_rubric
    · exact ⟨fun hmem => absurd hmem (rubricMarker_notin_promptLines r hb),
        fun hc => by simp at hc⟩
    · exact ⟨fun _ => rfl, fun _ => rubricMarker_mem_promptLines r hb⟩
  · cases hb : r.include_teacher_notes
    · exact ⟨fun hmem => absurd hmem (notesMarker_notin_promptLines r hb),
        fun hc => by simp at hc⟩
    · exact ⟨fun _ => rfl, fun _ => notesMarker_mem_promptLines r hb⟩
  · intro hb
    unfold systemPrompt promptLines
    rw [hb]
    simp only [List.append_assoc]
    apply joinLines_infix_lift _ _ _ (by simp)
    apply joinLines_infix_lift _ _ _ (by simp)
    apply joinLines_infix_lift _ _ _ (by simp)
    apply joinLines_infix_lift _ _ _ (by simp)
    apply joinLines_infix_lift _ _ _ (by simp)
    apply joinLines_infix_lift _ _ _ (by simp)
    apply joinLines_infix_lift _ _ _ (by simp)
    apply joinLines_infix_lift _ _ _ (by simp)
    apply joinLines_infix_lift _ _ _ (by simp)
    apply joinLines_infix_lift _ _ _ (by simp)
    apply joinLines_infix_lift _ _ _ (by simp)
    exact joinLines_infix_left _ _ (by simp [rubricLines])
  · intro hb
    unfold systemPrompt promptLines
    rw [hb]
    simp only [List.append_assoc]
    apply joinLines_infix_lift _ _ _ (by simp)
    apply joinLines_infix_lift _ _ _ (by simp)
    apply joinLines_infix_lift _ _ _ (by simp)
    apply joinLines_infix_lift _ _ _ (by simp)
    apply joinLines_infix_lift _ _ _ (by simp)
    apply joinLines_infix_lift _ _ _ (by simp)
    apply joinLines_infix_lift _ _ _ (by simp)
    apply joinLines_infix_lift _ _ _ (by simp)
    apply joinLines_infix_lift _ _ _ (by simp)
    apply joinLines_infix_lift _ _ _ (by simp)
    apply joinLines_infix_lift _ _ _ (by simp)
    apply joinLines_infix_lift _ _ _ (by simp)
    apply joinLines_infix_lift _ _ _ (by simp)
    exact joinLines_infix_left _ _ (by simp [teacherNotesLines])

theorem rubric_and_teacher_notes_sections_witness :
    ("## TEACHER NOTES (not for students)" ∈ promptLines scenarioRequest) ∧
      ¬ ("## QUICK RUBRIC (4 levels)" ∈ promptLines scenarioRequest) ∧
      (joinLines (teacherNotesLines true)).data <:+:
        (systemPrompt scenarioRequest).data := by
  have h := rubric_and_teacher_notes_sections scenarioRequest
  refine ⟨h.2.1.mpr rfl, ?_, h.2.2.2.1 rfl⟩
  intro hmem
  exact absurd (h.1.mp hmem) (by decide)

/-! ## Generate endpoint (src/app/api/generate/route.ts, POST)

The handler: rate limit on `request.ip || 'unknown'`, then
`request.json()`, then `inputSchema.parse`, then the generative-AI call,
with the catch block classifying thrown errors by their message.  The AI
call is the opaque collaborator and is passed in as a function from the
assembled prompt to its outcome; a failed `request.json()` is modelled by a
`none` body (a SyntaxError message contains none of the classifier
keywords, so it maps to 500). -/

/-- `String.prototype.includes` on the underlying character list. -/
def listIncludes (pat : List Char) : List Char → Bool
  | [] => pat.isEmpty
  | c :: rest => pat.isPrefixOf (c :: rest) || listIncludes pat rest

/-- `msg.includes(pat)`. -/
def strIncludes (msg pat : String) : Bool :=
  listIncludes pat.data msg.data

/-- The catch-block classification of a thrown error by its message
(route.ts lines 199-225). -/
def classifyGenFailure (msg : String) : Nat :=
  if strIncludes msg "API key" then 401
  else if strIncludes msg "quota" || strIncludes msg "limit" then 429
  else if strIncludes msg "safety" || strIncludes msg "blocked" then 400
  else 500

/-- The JSON response of the generate endpoint: HTTP status, the
`errors` field-path list of a 400 validation response, and the `markdown`
payload of a 200. -/
structure GenResponse where
  status : Nat
  errors : List String
  markdown : Option String
deriving DecidableEq

/-- The generate `POST` handler.  State threading: `m` is `rateLimitMap`
before the request, the returned map is its state after. -/
def generatePOST (ip : String) (now : Nat) (m : RLMap)
    (body : Option RawPayload) (ai : String → Except String String) :
    GenResponse × RLMap :=
  if (checkRateLimit ip now m).1 then
    match body with
    | none =>
        ({ status := 500, errors := [], markdown := none },
          (checkRateLimit ip now m).2)
    | some p =>
        match inputSchemaParse p with
        | Except.error l =>
            ({ status := 400, errors := l, markdown := none },
              (checkRateLimit ip now m).2)
        | Except.ok q =>
            match ai (systemPrompt q) with
            | Except.ok text =>
                ({ status := 200, errors := [], markdown := some text },
                  (checkRateLimit ip now m).2)
            | Except.error msg =>
                ({ status := classifyGenFailure msg, errors := [],
                   markdown := none }, (checkRateLimit ip now m).2)
  else
    ({ status := 429, errors := [], markdown := none },
      (checkRateLimit ip now m).2)

/-- A fully valid raw payload (the scenario of spec §8), used as the base
point of boundary and error-path instantiations. -/
def validPayload : RawPayload :=
  { curriculum := "CCSS", subject := "Math", grade := "Grade 5",
    topic := "Fractions", objectives := ["Add fractions"],
    duration := "45 min", support_level_desc := "x",
    core_level_desc := "y", extension_level_desc := "z",
    n_support := 3, n_core := 5, n_extension := 2,
    constraints := "", materials := "",
    include_teacher_notes := true, include_rubric := false,
    page_size := "A4", max_pages := 3 }

/-- C6: with every other field valid, the validator accepts `n_core = 1`
and `n_core = 15`, and rejects `n_core = 0` and `n_core = 16` with an
issue naming the `n_core` field. -/
theorem validator_nCore_boundaries (p : RawPayload)
    (hother : inputSchemaIssues { p with n_core := 1 } = []) :
    (inputSchemaParse { p with n_core := 1 }).isOk = true ∧
    (inputSchemaParse { p with n_core := 15 }).isOk = true ∧
    ("n_core" ∈ inputSchemaIssues { p with n_core := 0 } ∧
      (inputSchemaParse { p with n_core := 0 }).isOk = false) ∧
    ("n_core" ∈ inputSchemaIssues { p with n_core := 16 } ∧
      (inputSchemaParse { p with n_core := 16 }).isOk = false) := by
  have h' := hother
  simp only [inputSchemaIssues, List.append_eq_nil, and_assoc] at h'
  obtain ⟨h1, h2, h3, h4, h5, h6, h7, h8, h9, h10, h11, h12, h13, h14⟩ := h'
  have hn15 : numRangeIssues "n_core" 15 1 15 = [] := by decide
  have hn0 : numRangeIssues "n_core" 0 1 15 = ["n_core"] := by decide
  have hn16 : numRangeIssues "n_core" 16 1 15 = ["n_core"] := by decide
  refine ⟨?_, ?_, ⟨?_, ?_⟩, ⟨?_, ?_⟩⟩
  · simp [inputSchemaParse, hother, Except.isOk, Except.toBool]
  · simp [inputSchemaParse, inputSchemaIssues, h1, h2, h3, h4, h5, h6, h7,
      h8, h9, h10, h12, h13, h14, hn15, Except.isOk, Except.toBool]
  · simp [inputSchemaIssues, hn0]
  · simp [inputSchemaParse, inputSchemaIssues, h1, h2, h3, h4, h5, h6, h7,
      h8, h9, h10, h12, h13, h14, hn0, Except.isOk, Except.toBool]
  · simp [inputSchemaIssues, hn16]
  · simp [inputSchemaParse, inputSchemaIssues, h1, h2, h3, h4, h5, h6, h7,
      h8, h9, h10, h12, h13, h14, hn16, Except.isOk, Except.toBool]

theorem validator_nCore_boundaries_witness :
    (inputSchemaParse { validPayload with n_core := 15 }).isOk = true ∧
      ("n_core" ∈ inputSchemaIssues { validPayload with n_core := 16 } ∧
        (inputSchemaParse { validPayload with n_core := 16 }).isOk = false) ∧
      ("n_core" ∈ inputSchemaIssues { validPayload with n_core := 0 } ∧
        (inputSchemaParse { validPayload with n_core := 0 }).isOk = false) := by
  have h := validator_nCore_boundaries validPayload (by decide)
  exact ⟨h.2.1, h.2.2.2, h.2.2.1⟩

/-- C7 (counterexample): the claim fails on the code because
`z.number()` carries no integrality check.  The payload with an empty
curriculum and `n_core = 5/2` violates two of spec section 3's field
constraints (curriculum non-empty, n_core an integer in 1..15), yet the
single ZodError names only `curriculum`; and the payload with
`n_support = 7/2`, `n_core = 5/2` violates two section-3 constraints yet
passes validation outright. -/
theorem validator_nonInteger_counterexample :
    (SpecFieldViolated
        { validPayload with curriculum := "", n_core := mkRat 5 2 }
        "curriculum" ∧
      SpecFieldViolated
        { validPayload with curriculum := "", n_core := mkRat 5 2 }
        "n_core" ∧
      ("curriculum" : String) ≠ "n_core" ∧
      inputSchemaParse
          { validPayload with curriculum := "", n_core := mkRat 5 2 } =
        Except.error ["curriculum"] ∧
      "n_core" ∉ (["curriculum"] : List String)) ∧
    (SpecFieldViolated
        { validPayload with n_support := mkRat 7 2, n_core := mkRat 5 2 }
        "n_support" ∧
      SpecFieldViolated
        { validPayload with n_support := mkRat 7 2, n_core := mkRat 5 2 }
        "n_core" ∧
      Except.isOk
          (inputSchemaParse
            { validPayload with
                n_support := mkRat 7 2, n_core := mkRat 5 2 }) = true) :=
  ⟨⟨by decide, by decide, by decide, rfl, by decide⟩,
    ⟨by decide, by decide, rfl⟩⟩

/-- C7 (amended): on a payload violating more than one of the constraints
the schema actually checks (non-empty strings, 1-3 objectives, numeric
ranges without integrality, the page-size enum), validation fails once
with an issue list that enumerates exactly the schema-violated fields —
not only the first; the schema constraints coincide with spec section 3
whenever the numeric fields are integer-valued, so only integrality
violations go unreported; at the endpoint this surfaces as a single 400,
and the check is pure — the request's only state change is the rate
limiter's. -/
theorem validator_enumerates_schema_violations (p : RawPayload)
    (hmulti : ∃ f g, f ≠ g ∧ SchemaFieldViolated p f ∧
      SchemaFieldViolated p g) :
    inputSchemaParse p = Except.error (inputSchemaIssues p) ∧
    (∀ f, f ∈ inputSchemaIssues p ↔ SchemaFieldViolated p f) ∧
    (IntegralNumerics p →
      ∀ f, SchemaFieldViolated p f ↔ SpecFieldViolated p f) ∧
    (∀ ip now m ai, (checkRateLimit ip now m).1 = true →
      (generatePOST ip now m (some p) ai).1.status = 400 ∧
      (generatePOST ip now m (some p) ai).2 = (checkRateLimit ip now m).2) := by
  obtain ⟨f, g, hfg, hf, hg⟩ := hmulti
  have hfmem : f ∈ inputSchemaIssues p := (mem_inputSchemaIssues_iff p f).mpr hf
  have hnil : ¬ inputSchemaIssues p = [] := by
    intro h
    rw [h] at hfmem
    exact List.not_mem_nil f hfmem
  have hparse : inputSchemaParse p = Except.error (inputSchemaIssues p) := by
    cases hcase : inputSchemaIssues p with
    | nil => exact absurd hcase hnil
    | cons a as => simp [inputSchemaParse, hcase]
  refine ⟨hparse, fun f' => mem_inputSchemaIssues_iff p f', ?_, ?_⟩
  · intro hint f'
    obtain ⟨hd1, hd2, hd3, hd4⟩ := hint
    unfold SchemaFieldViolated SpecFieldViolated
    simp [hd1, hd2, hd3, hd4]
  · intro ip now m ai hadm
    unfold generatePOST
    rw [hadm, if_pos (show (true = true) from rfl)]
    dsimp only
    rw [hparse]
    exact ⟨rfl, rfl⟩

theorem validator_enumerates_schema_violations_witness :
    inputSchemaParse { validPayload with curriculum := "", n_core := 16 } =
      Except.error (inputSchemaIssues
        { validPayload with curriculum := "", n_core := 16 }) ∧
    "curriculum" ∈ inputSchemaIssues
        { validPayload with curriculum := "", n_core := 16 } ∧
    "n_core" ∈ inputSchemaIssues
        { validPayload with curriculum := "", n_core := 16 } := by
  have h := validator_enumerates_schema_violations
    { validPayload with curriculum := "", n_core := 16 }
    ⟨"curriculum", "n_core", by decide, by decide, by decide⟩
  exact ⟨h.1, (h.2.1 "curriculum").mpr (by decide),
    (h.2.1 "n_core").mpr (by decide)⟩

/-- C9: the generate handler runs the rate limiter before reading or
validating the body, so an admitted request whose payload fails validation
is answered 400 while still consuming one unit of the client's quota; the
final rate-limit state is exactly the post-admission state, never rolled
back (fresh key: counter created at 1; live-window key below capacity:
counter incremented). -/
theorem rateLimit_consumed_before_validation (ip : String) (now : Nat)
    (m : RLMap) (p : RawPayload) (l : List String)
    (ai : String → Except String String)
    (hval : inputSchemaParse p = Except.error l)
    (hadm : (checkRateLimit ip now m).1 = true) :
    generatePOST ip now m (some p) ai =
      ({ status := 400, errors := l, markdown := none },
        (checkRateLimit ip now m).2) ∧
    (List.lookup ip m = none →
      List.lookup ip (generatePOST ip now m (some p) ai).2 =
        some ⟨1, now + 60000⟩) ∧
    (∀ r, List.lookup ip m = some r → now ≤ r.resetTime → r.count < 10 →
      List.lookup ip (generatePOST ip now m (some p) ai).2 =
        some ⟨r.count + 1, r.resetTime⟩) := by
  have hmain : generatePOST ip now m (some p) ai =
      ({ status := 400, errors := l, markdown := none },
        (checkRateLimit ip now m).2) := by
    unfold generatePOST
    rw [hadm, if_pos (show (true = true) from rfl)]
    dsimp only
    rw [hval]
  refine ⟨hmain, ?_, ?_⟩
  · intro hnone
    rw [hmain, checkRateLimit_fresh ip now m hnone]
    simp [lookup_mapSet]
  · intro r hr hw hc
    rw [hmain, checkRateLimit_incr ip now m r hr (by omega) hc]
    simp [lookup_mapSet]

theorem rateLimit_consumed_before_validation_witness :
    generatePOST "1.2.3.4" 0 [] (some { validPayload with n_core := 0 })
        (fun _ => Except.ok "md") =
      ({ status := 400, errors := ["n_core"], markdown := none },
        (checkRateLimit "1.2.3.4" 0 []).2) ∧
    List.lookup "1.2.3.4"
        (generatePOST "1.2.3.4" 0 [] (some { validPayload with n_core := 0 })
          (fun _ => Except.ok "md")).2 = some ⟨1, 60000⟩ := by
  have h := rateLimit_consumed_before_validation "1.2.3.4" 0 []
    { validPayload with n_core := 0 } ["n_core"] (fun _ => Except.ok "md")
    rfl (by decide)
  exact ⟨h.1, h.2.1 (by decide)⟩

/-! ## Export endpoint (src/app/api/export-pdf/route.ts, POST)

The handler destructures `{templateData, pageSize, filename}` from the JSON
body, 400s when `templateData` is falsy, calls the templating AI, returns
the HTML directly in debug mode, otherwise launches a headless browser,
loads the HTML (30 s timeout), prints a PDF, closes the browser, and
replies with the PDF headers.  The catch block turns any thrown error into
a 500 JSON body; it does not close the browser.  The opaque steps are
passed in as outcome parameters and the launch/close of the browser context
is recorded in the result. -/

/-- The parsed `templateData` object: `debug` is `Boolean(templateData.debug)`
and the remaining key/value pairs only feed the AI templating prompt. -/
structure TemplateData where
  debug : Bool
  fields : List (String × String)
deriving DecidableEq

/-- The JSON body of an export request.  The handler reads only
`templateData`, `pageSize` and `filename`; the `markdown` key that the
repository's own frontend (`exportPDF` in the page component) sends is
never read.  `none` models an absent or otherwise falsy value. -/
structure ExportPDFRequest where
  markdown : Option String
  templateData : Option TemplateData
  pageSize : Option String
  filename : Option String
deriving DecidableEq

/-- Outcomes of the opaque external steps of one export request: the
templating AI call (client creation, `generateContent`, `response.text()`),
the `page.setContent` load (which throws a TimeoutError after 30 s), and
`page.pdf` (the byte buffer, or a thrown error). -/
structure RenderEnv where
  aiHtml : Except String String
  setContentOutcome : Except String Unit
  pdfOutcome : Except String (List Nat)

/-- The body of an export response. -/
inductive ExportBody where
  | jsonMessage (message : String)
  | jsonHtml (html : String)
  | pdfBytes (bytes : List Nat)
deriving DecidableEq

/-- The observable outcome of one export request: HTTP status, the two
response headers, the body, and whether the browser context was launched
and whether it was closed. -/
structure ExportResult where
  status : Nat
  contentType : Option String
  contentDisposition : Option String
  body : ExportBody
  browserLaunched : Bool
  browserClosed : Bool
deriving DecidableEq

/-- `filename || 'document'` (JavaScript falsy: absent or empty string). -/
def filenameOrDefault : Option String → String
  | none => "document"
  | some f => if f = "" then "document" else f

/-- The export `POST` handler. -/
def exportPOST (req : ExportPDFRequest) (env : RenderEnv) : ExportResult :=
  match req.templateData with
  | none =>
      { status := 400, contentType := some "application/json",
        contentDisposition := none,
        body := ExportBody.jsonMessage "Template data is required",
        browserLaunched := false, browserClosed := false }
  | some td =>
      match env.aiHtml with
      | Except.error e =>
          { status := 500, contentType := some "application/json",
            contentDisposition := none, body := ExportBody.jsonMessage e,
            browserLaunched := false, browserClosed := false }
      | Except.ok fullHtml =>
          if td.debug then
            { status := 200, contentType := some "application/json",
              contentDisposition := none,
              body := ExportBody.jsonHtml fullHtml,
              browserLaunched := false, browserClosed := false }
          else
            match env.setContentOutcome with
            | Except.error e =>
                { status := 500, contentType := some "application/json",
                  contentDisposition := none,
                  body := ExportBody.jsonMessage e,
                  browserLaunched := true, browserClosed := false }
            | Except.ok _ =>
                match env.pdfOutcome with
                | Except.error e =>
                    { status := 500, contentType := some "application/json",
                      contentDisposition := none,
                      body := ExportBody.jsonMessage e,
                      browserLaunched := true, browserClosed := false }
                | Except.ok bytes =>
                    { status := 200, contentType := some "application/pdf",
                      contentDisposition :=
                        some ("attachment; filename=\"" ++
                          filenameOrDefault req.filename ++ ".pdf\""),
                      body := ExportBody.pdfBytes bytes,
                      browserLaunched := true, browserClosed := true }

/-- C2: the spec's export scenario — body `{markdown: "# Title\n\nBody",
pageSize: "Letter", filename: "doc"}` — is answered 400 with message
`Template data is required` for every renderer outcome, not 200 with a PDF:
the handler destructures only `templateData`, which a markdown-shaped body
does not carry, although the repository's own frontend posts exactly this
shape and expects PDF bytes back. -/
theorem export_markdown_request_rejected (env : RenderEnv) :
    exportPOST
        { markdown := some "# Title\n\nBody", templateData := none,
          pageSize := some "Letter", filename := some "doc" } env =
      { status := 400, contentType := some "application/json",
        contentDisposition := none,
        body := ExportBody.jsonMessage "Template data is required",
        browserLaunched := false, browserClosed := false } :=
  rfl

/-- C4: the browser context is not released on the error exit paths.  With
valid template data and debug off, if `page.setContent` throws (the 30 s
navigation timeout) or `page.pdf` throws, the handler answers 500 from its
catch block with the browser launched but never closed — `browser.close()`
is only reached on the success path. -/
theorem export_browser_leak_on_error :
    ((exportPOST
        { markdown := none, templateData := some ⟨false, []⟩,
          pageSize := some "A4", filename := none }
        { aiHtml := Except.ok "<html></html>",
          setContentOutcome :=
            Except.error "TimeoutError: Navigation timeout of 30000 ms exceeded",
          pdfOutcome := Except.ok [] }).browserLaunched = true ∧
      (exportPOST
        { markdown := none, templateData := some ⟨false, []⟩,
          pageSize := some "A4", filename := none }
        { aiHtml := Except.ok "<html></html>",
          setContentOutcome :=
            Except.error "TimeoutError: Navigation timeout of 30000 ms exceeded",
          pdfOutcome := Except.ok [] }).browserClosed = false ∧
      (exportPOST
        { markdown := none, templateData := some ⟨false, []⟩,
          pageSize := some "A4", filename := none }
        { aiHtml := Except.ok "<html></html>",
          setContentOutcome :=
            Except.error "TimeoutError: Navigation timeout of 30000 ms exceeded",
          pdfOutcome := Except.ok [] }).status = 500) ∧
    ((exportPOST
        { markdown := none, templateData := some ⟨false, []⟩,
          pageSize := some "A4", filename := none }
        { aiHtml := Except.ok "<html></html>",
          setContentOutcome := Except.ok (),
          pdfOutcome :=
            Except.error "Protocol error: Target closed" }).browserLaunched =
        true ∧
      (exportPOST
        { markdown := none, templateData := some ⟨false, []⟩,
          pageSize := some "A4", filename := none }
        { aiHtml := Except.ok "<html></html>",
          setContentOutcome := Except.ok (),
          pdfOutcome :=
            Except.error "Protocol error: Target closed" }).browserClosed =
        false) := by
  decide

/-- C10: a successful non-debug export whose request omits `filename`
carries the header `Content-Disposition: attachment;
filename="document.pdf"` — the filename defaults to `document`. -/
theorem export_default_filename (md : Option String) (td : TemplateData)
    (ps : Option String) (html : String) (bytes : List Nat)
    (hdebug : td.debug = false) :
    (exportPOST
        { markdown := md, templateData := some td, pageSize := ps,
          filename := none }
        { aiHtml := Except.ok html, setContentOutcome := Except.ok (),
          pdfOutcome := Except.ok bytes }).contentDisposition =
      some "attachment; filename=\"document.pdf\"" ∧
    (exportPOST
        { markdown := md, templateData := some td, pageSize := ps,
          filename := none }
        { aiHtml := Except.ok html, setContentOutcome := Except.ok (),
          pdfOutcome := Except.ok bytes }).status = 200 ∧
    (exportPOST
        { markdown := md, templateData := some td, pageSize := ps,
          filename := none }
        { aiHtml := Except.ok html, setContentOutcome := Except.ok (),
          pdfOutcome := Except.ok bytes }).contentType =
      some "application/pdf" := by
  simp [exportPOST, hdebug, filenameOrDefault]

theorem export_default_filename_witness :
    (exportPOST
        { markdown := none, templateData := some ⟨false, []⟩,
          pageSize := some "Letter", filename := none }
        { aiHtml := Except.ok "<html></html>",
          setContentOutcome := Except.ok (),
          pdfOutcome := Except.ok [37, 80, 68, 70] }).contentDisposition =
      some "attachment; filename=\"document.pdf\"" ∧
    (exportPOST
        { markdown := none, templateData := some ⟨false, []⟩,
          pageSize := some "Letter", filename := none }
        { aiHtml := Except.ok "<html></html>",
          setContentOutcome := Except.ok (),
          pdfOutcome := Except.ok [37, 80, 68, 70] }).status = 200 := by
  have h := export_default_filename none ⟨false, []⟩ (some "Letter")
    "<html></html>" [37, 80, 68, 70] rfl
  exact ⟨h.1, h.2.1⟩

end WorksheetMaker
